import Mathlib

/-!
Verification development for the MicrosoftLearning Azure DP-100 diabetes scripts.

The repository holds three Python scripts:
* `diabetes_service/score_diabetes.py` — a scoring service with `init` (loads a
  persisted model into a module-level variable) and `run` (scores JSON requests);
* `diabetes_training_from_datastore/diabetes_training.py` — trains a logistic
  regression model on CSV files read from a data folder;
* `diabetes_training_tree/diabetes_training.py` — trains a decision tree on a
  tabular dataset handed in by the platform.

The embedding below translates each script line by line.  Calls into external
libraries (scikit-learn `fit`/`predict`/`predict_proba`, `roc_auc_score`,
`roc_curve`, `train_test_split`, `json.loads`, `pandas.read_csv`) are modelled
as abstract functions supplied through environment structures; everything the
scripts themselves do (argument defaulting, column selection, list indexing,
the order of calls and of logging, the strings and file names used) is
modelled concretely.  Python floats are modelled as rationals.  A training
script's observable behaviour is its ordered list of `Event`s.
-/

/-- Errors that the Python code can raise and propagate.  The scripts contain
no `try`/`except`, so every library error aborts the script. -/
inductive PyErr where
  | jsonDecodeError
  | keyError (k : String)
  | typeError
  | indexError
  | valueError
  | ioError (msg : String)
deriving DecidableEq, Repr

/-- JSON values, as produced by `json.loads`. -/
inductive Json where
  | null
  | bool (b : Bool)
  | num (q : ℚ)
  | str (s : String)
  | arr (xs : List Json)
  | obj (fields : List (String × Json))

namespace ScoreDiabetes

/-- `classnames = ['not-diabetic', 'diabetic']` from `score_diabetes.py` line 24. -/
def classnames : List String := ["not-diabetic", "diabetic"]

/-- Python list subscription `xs[i]`: a negative index wraps once by adding
`len(xs)`; anything still out of range raises `IndexError`. -/
def pyIndex {α : Type} (xs : List α) (i : Int) : Except PyErr α :=
  let j : Int := if i < 0 then i + xs.length else i
  if j < 0 then .error .indexError
  else
    match xs.get? j.toNat with
    | some v => .ok v
    | none => .error .indexError

/-- Python subscription `j['data']` on a parsed JSON value: a `KeyError` when
the key is absent from an object, a `TypeError` when the value is not an
object (Python raises `TypeError`/`IndexError` on other shapes; we fold these
into `typeError`). -/
def getField (j : Json) (k : String) : Except PyErr Json :=
  match j with
  | .obj fields =>
    match fields.lookup k with
    | some v => .ok v
    | none => .error (.keyError k)
  | _ => .error .typeError

/-- `json.dumps` on a list of plain strings (Python's default separators).
The class names contain no characters that need escaping. -/
def jsonDumpsStrList (xs : List String) : String :=
  "[" ++ String.intercalate ", " (xs.map fun s => "\"" ++ s ++ "\"") ++ "]"

/-- External-library interface of the scoring script: `json.loads`, and the
loaded model's `predict` composed with `np.array` (both opaque library code).
`predict` takes the JSON value bound to `'data'` and yields one integer label
per row, or a library error when the rows cannot be scored. -/
structure ServeEnv (M : Type) where
  loads : String → Except PyErr Json
  predict : M → Json → Except PyErr (List Int)

/-- The module-level state of the service: the `model` global set by `init`. -/
structure ServeState (M : Type) where
  model : M

/-- `run(raw_data)` from `score_diabetes.py` lines 14–29, with the module
state threaded explicitly: parse the request, take its `'data'` field, score
it with the loaded model, map each prediction through
`classnames[prediction]`, and return the JSON-encoded class names.  The
function never assigns to `model`, so it returns the state it was given. -/
def run {M : Type} (env : ServeEnv M) (st : ServeState M) (raw_data : String) :
    Except PyErr String × ServeState M :=
  ((do
    let parsed ← env.loads raw_data
    let data ← getField parsed "data"
    let predictions ← env.predict st.model data
    let predicted_classes ← predictions.mapM (pyIndex classnames)
    pure (jsonDumpsStrList predicted_classes) : Except PyErr String), st)

end ScoreDiabetes

/-! ## Training scripts: data model -/

/-- A dataframe cell.  `none` models pandas' NaN (a value absent after
concatenation of frames with different columns, or a short row). -/
abbrev Cell : Type := Option ℚ

/-- A pandas dataframe: named columns and row-major data. -/
structure DF where
  columns : List String
  rows : List (List Cell)

/-- Position of a column name, raising `KeyError` when absent
(pandas column subscription). -/
def dfColIdx (d : DF) (name : String) : Except PyErr Nat :=
  match d.columns.findIdx? (· == name) with
  | some i => .ok i
  | none => .error (.keyError name)

/-- `df[[c1, …, ck]].values`: the row-major matrix of the named columns, in
the order the names are given; `KeyError` when any name is missing. -/
def dfSelect (d : DF) (names : List String) : Except PyErr (List (List Cell)) := do
  let idxs ← names.mapM (dfColIdx d)
  pure (d.rows.map fun r => idxs.map fun i => r.getD i none)

/-- `df[c].values`: one column as a list, `KeyError` when missing. -/
def dfGetCol (d : DF) (name : String) : Except PyErr (List Cell) := do
  let i ← dfColIdx d name
  pure (d.rows.map fun r => r.getD i none)

/-- `pd.concat`: stack the rows of all frames; the result's columns are the
union of the input columns in order of first appearance, with `none` (NaN)
filling cells of frames lacking a column. -/
def pdConcat (dfs : List DF) : DF :=
  let cols := (dfs.flatMap fun d => d.columns).eraseDups
  ⟨cols,
   dfs.flatMap fun d => d.rows.map fun r =>
     cols.map fun c =>
       match d.columns.findIdx? (· == c) with
       | some i => r.getD i none
       | none => none⟩

/-- The eight feature columns both training scripts select, in source order
(`diabetes_training.py`, the `X, y = diabetes[[…]].values, …` line). -/
def featureColumns : List String :=
  ["Pregnancies", "PlasmaGlucose", "DiastolicBloodPressure", "TricepsThickness",
   "SerumInsulin", "BMI", "DiabetesPedigree", "Age"]

/-- `np.average(y_hat == y_test)`: the fraction of positions where the
prediction equals the true label. -/
def accuracyOf (y_hat y_test : List Cell) : ℚ :=
  (((y_hat.zip y_test).countP fun c => c.1 == c.2 : ℕ) : ℚ) /
    (((y_hat.zip y_test).length : ℕ) : ℚ)

/-- Constructor arguments of `LogisticRegression(C=…, solver=…)`. -/
structure LRConfig where
  C : ℚ
  solver : String
deriving DecidableEq

/-- One observable action of a training script, in source order: prints,
`run.log`/`run.log_image` calls, the library calls it makes, matplotlib
calls, `os.makedirs` and `joblib.dump`, and `run.complete()`.  `M` is the
opaque type of fitted model objects. -/
inductive Event (M : Type) where
  | print (s : String)
  | splitCall (test_size : ℚ) (random_state : Nat)
  | fitLR (cfg : LRConfig) (result : M)
  | fitTree (result : M)
  | predictCall (m : M)
  | predictProbaCall (m : M)
  | logMetric (name : String) (value : ℚ)
  | rocCurveCall (fpr tpr thresholds : List ℚ)
  | pltFigure
  | pltPlot (xs ys : List ℚ) (style : String)
  | pltXlabel (s : String)
  | pltYlabel (s : String)
  | pltTitle (s : String)
  | logImage (name : String)
  | pltShow
  | makedirs (path : String)
  | dump (m : M) (filename : String)
  | complete
deriving DecidableEq

/-- Tests on events, used to state ordering and filtering properties. -/
def isSplitCall {M : Type} : Event M → Bool
  | .splitCall _ _ => true
  | _ => false

def isFitEvent {M : Type} : Event M → Bool
  | .fitLR _ _ => true
  | .fitTree _ => true
  | _ => false

def isPredictEvent {M : Type} : Event M → Bool
  | .predictCall _ => true
  | _ => false

def isLogMetricEvent {M : Type} : Event M → Bool
  | .logMetric _ _ => true
  | _ => false

def isDumpEvent {M : Type} : Event M → Bool
  | .dump _ _ => true
  | _ => false

/-- Events that belong to plotting: the ROC-curve computation, the matplotlib
calls, and logging the figure as an image. -/
def isPlotEvent {M : Type} : Event M → Bool
  | .rocCurveCall _ _ _ => true
  | .pltFigure => true
  | .pltPlot _ _ _ => true
  | .pltXlabel _ => true
  | .pltYlabel _ => true
  | .pltTitle _ => true
  | .logImage _ => true
  | .pltShow => true
  | _ => false

/-- Test for a `run.log` call with a particular metric name. -/
def isLogNamed {M : Type} (n : String) : Event M → Bool
  | .logMetric m _ => m == n
  | _ => false

/-- `eventsBefore p q tr`: in trace `tr`, every `p`-event occurs strictly
before every `q`-event. -/
def eventsBefore {M : Type} (p q : Event M → Bool) (tr : List (Event M)) : Prop :=
  ∀ i j : Nat, i < tr.length → j < tr.length →
    p (tr.getD i .complete) = true → q (tr.getD j .complete) = true → i < j

/-- External-library interface of the datastore training script: `os.listdir`
and `pd.read_csv` for loading, and the scikit-learn entry points it calls. -/
structure DatastoreEnv (M : Type) where
  listdir : String → List String
  read_csv : String → Except PyErr DF
  train_test_split : List (List Cell) → List Cell → ℚ → Nat →
    List (List Cell) × List (List Cell) × List Cell × List Cell
  lrFit : LRConfig → List (List Cell) → List Cell → M
  predict : M → List (List Cell) → List Cell
  predict_proba : M → List (List Cell) → List (ℚ × ℚ)
  roc_auc_score : List Cell → List ℚ → ℚ

/-- External-library interface of the decision-tree training script: the
input dataset materialised by `run.input_datasets['diabetes']
.to_pandas_dataframe()`, and the scikit-learn entry points it calls. -/
structure TreeEnv (M : Type) where
  dataset : DF
  train_test_split : List (List Cell) → List Cell → ℚ → Nat →
    List (List Cell) × List (List Cell) × List Cell × List Cell
  treeFit : List (List Cell) → List Cell → M
  predict : M → List (List Cell) → List Cell
  predict_proba : M → List (List Cell) → List (ℚ × ℚ)
  roc_auc_score : List Cell → List ℚ → ℚ
  roc_curve : List Cell → List ℚ → List ℚ × List ℚ × List ℚ

/-- Parsed command-line arguments of the datastore script.
`regularization = none` models the `--regularization` flag being absent. -/
structure Args where
  regularization : Option ℚ
  data_folder : String

/-- Data loading of the datastore script (`diabetes_training_from_datastore`,
lines 24–31): list the data folder, read every entry as a CSV file,
concatenate the frames, then project features and label. -/
def datastoreLoad {M : Type} (env : DatastoreEnv M) (args : Args) :
    Except PyErr (List (List Cell) × List Cell) := do
  let all_files := env.listdir args.data_folder
  let dfs ← all_files.mapM env.read_csv
  let diabetes := pdConcat dfs
  let X ← dfSelect diabetes featureColumns
  let y ← dfGetCol diabetes "Diabetic"
  pure (X, y)

/-- The event trace of the datastore script on successfully loaded data
(`diabetes_training_from_datastore`, lines 25 and 34–57, in source order).
`reg` defaults to `0.01` when the flag is absent (line 15); the classifier is
`LogisticRegression(C=1/reg, solver="liblinear")` (line 39). -/
def datastoreRun {M : Type} (env : DatastoreEnv M) (args : Args)
    (X : List (List Cell)) (y : List Cell) : List (Event M) :=
  let reg : ℚ := args.regularization.getD (1/100)
  let split := env.train_test_split X y (3/10) 0
  let X_train := split.1
  let X_test := split.2.1
  let y_train := split.2.2.1
  let y_test := split.2.2.2
  let model := env.lrFit ⟨1/reg, "liblinear"⟩ X_train y_train
  let y_hat := env.predict model X_test
  let acc := accuracyOf y_hat y_test
  let y_scores := env.predict_proba model X_test
  let auc := env.roc_auc_score y_test (y_scores.map Prod.snd)
  [Event.print ("Loading data from " ++ args.data_folder),
   Event.splitCall (3/10) 0,
   Event.print ("Training a logistic regression model with regularization rate of "
     ++ toString reg),
   Event.logMetric "Regularization Rate" reg,
   Event.fitLR ⟨1/reg, "liblinear"⟩ model,
   Event.predictCall model,
   Event.print ("Accuracy: " ++ toString acc),
   Event.logMetric "Accuracy" acc,
   Event.predictProbaCall model,
   Event.print ("AUC: " ++ toString auc),
   Event.logMetric "AUC" auc,
   Event.makedirs "outputs",
   Event.dump model "outputs/diabetes_model.pkl",
   Event.complete]

/-- The whole datastore script: load, then emit the trace. -/
def datastoreScript {M : Type} (env : DatastoreEnv M) (args : Args) :
    Except PyErr (List (Event M)) :=
  (datastoreLoad env args).map fun xy => datastoreRun env args xy.1 xy.2

/-- Data access of the tree script (`diabetes_training_tree`, lines 18–21):
project features and label from the input dataset. -/
def treeLoad {M : Type} (env : TreeEnv M) :
    Except PyErr (List (List Cell) × List Cell) := do
  let X ← dfSelect env.dataset featureColumns
  let y ← dfGetCol env.dataset "Diabetic"
  pure (X, y)

/-- The event trace of the tree script on successfully loaded data
(`diabetes_training_tree`, lines 17 and 24–59, in source order), including
the ROC plot (lines 42–53). -/
def treeRun {M : Type} (env : TreeEnv M)
    (X : List (List Cell)) (y : List Cell) : List (Event M) :=
  let split := env.train_test_split X y (3/10) 0
  let X_train := split.1
  let X_test := split.2.1
  let y_train := split.2.2.1
  let y_test := split.2.2.2
  let model := env.treeFit X_train y_train
  let y_hat := env.predict model X_test
  let acc := accuracyOf y_hat y_test
  let y_scores := env.predict_proba model X_test
  let scores := y_scores.map Prod.snd
  let auc := env.roc_auc_score y_test scores
  let rc := env.roc_curve y_test scores
  [Event.print "Loading Data...",
   Event.splitCall (3/10) 0,
   Event.print "Training a decision tree model",
   Event.fitTree model,
   Event.predictCall model,
   Event.print ("Accuracy: " ++ toString acc),
   Event.logMetric "Accuracy" acc,
   Event.predictProbaCall model,
   Event.print ("AUC: " ++ toString auc),
   Event.logMetric "AUC" auc,
   Event.rocCurveCall rc.1 rc.2.1 rc.2.2,
   Event.pltFigure,
   Event.pltPlot [0, 1] [0, 1] "k--",
   Event.pltPlot rc.1 rc.2.1 "",
   Event.pltXlabel "False Positive Rate",
   Event.pltYlabel "True Positive Rate",
   Event.pltTitle "ROC Curve",
   Event.logImage "ROC",
   Event.pltShow,
   Event.makedirs "outputs",
   Event.dump model "outputs/diabetes_model.pkl",
   Event.complete]

/-- The whole tree script: load, then emit the trace. -/
def treeScript {M : Type} (env : TreeEnv M) : Except PyErr (List (Event M)) :=
  (treeLoad env).map fun xy => treeRun env xy.1 xy.2

/-! ## Concrete instances used to exercise the theorems -/

/-- A concrete dataframe with the eight feature columns and the label column:
ten rows, features all `1`, labels all `0`. -/
def exDF : DF :=
  ⟨featureColumns ++ ["Diabetic"],
   List.replicate 10 (List.replicate 8 (some 1) ++ [some 0])⟩

/-- The feature matrix `dfSelect` extracts from `exDF`. -/
def exX : List (List Cell) := List.replicate 10 (List.replicate 8 (some 1))

/-- The label column `dfGetCol` extracts from `exDF`. -/
def exY : List Cell := List.replicate 10 (some 0)

/-- A concrete split obeying scikit-learn's documented sizes at
`test_size = 0.3`: the test set is the first `⌈3n/10⌉ = (3n+9)/10` rows. -/
def exSplit (X : List (List Cell)) (y : List Cell) (_ts : ℚ) (_rs : Nat) :
    List (List Cell) × List (List Cell) × List Cell × List Cell :=
  let k := (3 * X.length + 9) / 10
  (X.drop k, X.take k, y.drop k, y.take k)

/-- A concrete datastore environment: one CSV file holding `exDF`, and
constant library functions (model objects are natural numbers). -/
def exDSEnv : DatastoreEnv Nat :=
  ⟨fun _ => ["diabetes.csv"],
   fun _ => .ok exDF,
   exSplit,
   fun _ _ _ => 7,
   fun _ X => X.map fun _ => some 1,
   fun _ X => X.map fun _ => (1/2, 1/2),
   fun _ _ => 1/2⟩

/-- Concrete command-line arguments: `--regularization 1`, folder `data`. -/
def exArgs : Args := ⟨some 1, "data"⟩

/-- A concrete tree environment over the same dataframe. -/
def exTreeEnv : TreeEnv Nat :=
  ⟨exDF, exSplit,
   fun _ _ => 9,
   fun _ X => X.map fun _ => some 1,
   fun _ X => X.map fun _ => (1/2, 1/2),
   fun _ _ => 1/2,
   fun _ _ => ([0], [0], [1])⟩

/-- The datastore trace at the example environment. -/
def exTraceDS : List (Event Nat) := datastoreRun exDSEnv exArgs exX exY

/-- The tree trace at the example environment. -/
def exTraceTree : List (Event Nat) := treeRun exTreeEnv exX exY

/-- A datastore environment whose folder holds an entry `pd.read_csv`
chokes on. -/
def exDSEnvBad : DatastoreEnv Nat :=
  ⟨fun _ => ["diabetes.csv"],
   fun _ => .error (.ioError "not a csv"),
   exSplit,
   fun _ _ _ => 7,
   fun _ X => X.map fun _ => some 1,
   fun _ X => X.map fun _ => (1/2, 1/2),
   fun _ _ => 1/2⟩

/-- A dataframe missing the `Diabetic` label column. -/
def exDFNoLabel : DF :=
  ⟨featureColumns, List.replicate 2 (List.replicate 8 (some 1))⟩

/-- A datastore environment whose CSV files lack the `Diabetic` column. -/
def exDSEnvNoLabel : DatastoreEnv Nat :=
  ⟨fun _ => ["diabetes.csv"],
   fun _ => .ok exDFNoLabel,
   exSplit,
   fun _ _ _ => 7,
   fun _ X => X.map fun _ => some 1,
   fun _ X => X.map fun _ => (1/2, 1/2),
   fun _ _ => 1/2⟩

namespace ScoreDiabetes

/-- A concrete well-formed request body: two feature rows. -/
def exJsonReq : Json :=
  Json.obj [("data", Json.arr [Json.arr [Json.num 1], Json.arr [Json.num 2]])]

/-- A serving environment distinguishing several request shapes; its model
labels the two rows `0` and `1`. -/
def exServeEnv : ServeEnv Nat :=
  ⟨fun s =>
     if s = "notjson" then .error .jsonDecodeError
     else if s = "nodata" then .ok (Json.obj [("other", Json.null)])
     else if s = "notobj" then .ok (Json.arr [])
     else .ok exJsonReq,
   fun _ _ => .ok [0, 1]⟩

/-- A serving environment whose model cannot score the rows. -/
def exServeEnvErr : ServeEnv Nat :=
  ⟨fun _ => .ok exJsonReq, fun _ _ => .error .valueError⟩

/-- A serving environment whose model emits the label `5`, outside `{0, 1}`. -/
def exServeEnvBig : ServeEnv Nat :=
  ⟨fun _ => .ok exJsonReq, fun _ _ => .ok [0, 5]⟩

/-- A concrete module state. -/
def exSt : ServeState Nat := ⟨0⟩

/-- Full case analysis of `classnames[p]` for an arbitrary integer label. -/
theorem pyIndex_classnames (p : Int) :
    pyIndex classnames p =
      if p = 0 ∨ p = -2 then .ok "not-diabetic"
      else if p = 1 ∨ p = -1 then .ok "diabetic"
      else .error .indexError := by
  have hlen : (classnames.length : Int) = 2 := by rfl
  by_cases h0 : p = 0
  · subst h0; rfl
  · by_cases h2 : p = -2
    · subst h2; rfl
    · by_cases h1 : p = 1
      · subst h1; rfl
      · by_cases hm1 : p = -1
        · subst hm1; rfl
        · simp only [if_neg (by tauto : ¬(p = 0 ∨ p = -2)),
            if_neg (by tauto : ¬(p = 1 ∨ p = -1))]
          unfold pyIndex
          rcases lt_or_le p 0 with hneg | hpos
          · have hj : p + (classnames.length : Int) < 0 := by
              rw [hlen]; omega
            simp only [if_pos hneg]
            rw [if_pos (by simpa using hj)]
          · have hge : (2 : Int) ≤ p := by omega
            have hnlt : ¬ p < 0 := by omega
            simp only [if_neg hnlt]
            have : classnames.get? p.toNat = none := by
              rw [List.get?_eq_none]
              have : (2 : ℕ) ≤ p.toNat := by omega
              simpa [classnames] using this
            rw [this]

/-- `mapM` of the classname lookup when every label is `0` or `1`. -/
theorem mapM_pyIndex_binary (preds : List Int)
    (h : ∀ p ∈ preds, p = 0 ∨ p = 1) :
    preds.mapM (pyIndex classnames) =
      .ok (preds.map fun p => if p = 0 then "not-diabetic" else "diabetic") := by
  induction preds with
  | nil => rfl
  | cons a l ih =>
    have ha := h a (by simp)
    have hl : ∀ p ∈ l, p = 0 ∨ p = 1 := fun p hp => h p (by simp [hp])
    rw [List.mapM_cons, ih hl]
    rcases ha with ha | ha <;> subst ha <;> rfl

/-- If some label in the list is out of range for `classnames` (that is,
`p ≥ 2` or `p ≤ -3`), the `mapM` of lookups raises `IndexError`. -/
theorem mapM_pyIndex_outOfRange (preds : List Int) (p : Int)
    (hp : p ∈ preds) (hout : 2 ≤ p ∨ p ≤ -3) :
    preds.mapM (pyIndex classnames) = .error .indexError := by
  induction preds with
  | nil => simp at hp
  | cons a l ih =>
    rw [List.mapM_cons]
    rcases List.mem_cons.mp hp with rfl | hmem
    · have : pyIndex classnames p = .error .indexError := by
        rw [pyIndex_classnames]
        rw [if_neg (by omega), if_neg (by omega)]
      rw [this]; rfl
    · rcases hval : pyIndex classnames a with e | v
      · have he : e = .indexError := by
          have hspec := pyIndex_classnames a
          rw [hval] at hspec
          by_cases c1 : a = 0 ∨ a = -2
          · rw [if_pos c1] at hspec; cases hspec
          · rw [if_neg c1] at hspec
            by_cases c2 : a = 1 ∨ a = -1
            · rw [if_pos c2] at hspec; cases hspec
            · rw [if_neg c2] at hspec; cases hspec; rfl
        subst he; rfl
      · rw [ih hmem]; rfl

/-- Unfolding `run` into the explicit chain of library calls. -/
theorem run_eq {M : Type} (env : ServeEnv M) (st : ServeState M) (raw : String) :
    run env st raw =
      ((env.loads raw).bind fun parsed =>
        (getField parsed "data").bind fun data =>
          (env.predict st.model data).bind fun preds =>
            (preds.mapM (pyIndex classnames)).bind fun classes =>
              .ok (jsonDumpsStrList classes), st) := rfl

/-- `getField` on an object inspects the key lookup. -/
theorem getField_obj (fields : List (String × Json)) (k : String) :
    getField (Json.obj fields) k =
      match fields.lookup k with
      | some v => .ok v
      | none => .error (.keyError k) := rfl

/-- C1: for a request whose body is a JSON object with a `data` field holding
`n` feature rows, and a model that labels each row `0` or `1`, `run` returns
the JSON encoding of a list of exactly `n` class names, whose `i`-th entry is
`not-diabetic` when the model predicts `0` for row `i` and `diabetic` when it
predicts `1`. -/
theorem run_returns_label_per_row {M : Type} (env : ServeEnv M) (st : ServeState M)
    (raw : String) (fields : List (String × Json)) (rows : List Json) (preds : List Int)
    (hload : env.loads raw = .ok (Json.obj fields))
    (hdata : fields.lookup "data" = some (Json.arr rows))
    (hpred : env.predict st.model (Json.arr rows) = .ok preds)
    (hlen : preds.length = rows.length)
    (hbin : ∀ p ∈ preds, p = 0 ∨ p = 1) :
    ∃ classes : List String,
      run env st raw = (.ok (jsonDumpsStrList classes), st) ∧
      classes.length = rows.length ∧
      ∀ i : Nat, i < classes.length →
        classes.getD i "" =
          if preds.getD i 0 = 0 then "not-diabetic" else "diabetic" := by
  refine ⟨preds.map fun p => if p = 0 then "not-diabetic" else "diabetic", ?_, ?_, ?_⟩
  · rw [run_eq, hload]
    show ((getField (Json.obj fields) "data").bind _, st) = _
    rw [getField_obj, hdata]
    show ((env.predict st.model (Json.arr rows)).bind _, st) = _
    rw [hpred]
    show ((preds.mapM (pyIndex classnames)).bind _, st) = _
    rw [mapM_pyIndex_binary preds hbin]
    rfl
  · rw [List.length_map, hlen]
  · intro i hi
    rw [List.length_map] at hi
    rw [List.getD_eq_getElem _ _ (by simpa using hi), List.getElem_map,
      List.getD_eq_getElem _ _ hi]

/-- C1 witness: the concrete environment, a two-row request. -/
theorem run_returns_label_per_row_check :
    ∃ classes : List String,
      run exServeEnv exSt "good" = (.ok (jsonDumpsStrList classes), exSt) ∧
      classes.length = 2 ∧
      ∀ i : Nat, i < classes.length →
        classes.getD i "" =
          if ([0, 1] : List Int).getD i 0 = 0 then "not-diabetic" else "diabetic" :=
  run_returns_label_per_row exServeEnv exSt "good" _
    [Json.arr [Json.num 1], Json.arr [Json.num 2]] [0, 1]
    rfl rfl rfl rfl (by decide)

/-- C5: `run` performs no error recovery: the result state always equals the
input state, and whenever `json.loads` fails, the parsed value has no `data`
key, the parsed value is not an object, or the model cannot score the rows,
`run` propagates the library error instead of returning a value. -/
theorem run_propagates_errors {M : Type} (env : ServeEnv M) (st : ServeState M)
    (raw : String) :
    ((run env st raw).2 = st) ∧
    (∀ e, env.loads raw = .error e → run env st raw = (.error e, st)) ∧
    (∀ fields, env.loads raw = .ok (Json.obj fields) → fields.lookup "data" = none →
      run env st raw = (.error (.keyError "data"), st)) ∧
    (∀ j, env.loads raw = .ok j → (∀ fields, j ≠ Json.obj fields) →
      run env st raw = (.error .typeError, st)) ∧
    (∀ j d e, env.loads raw = .ok j → getField j "data" = .ok d →
      env.predict st.model d = .error e → run env st raw = (.error e, st)) := by
  refine ⟨rfl, ?_, ?_, ?_, ?_⟩
  · intro e hld
    rw [run_eq, hld]; rfl
  · intro fields hld hnone
    rw [run_eq, hld]
    show ((getField (Json.obj fields) "data").bind _, st) = _
    rw [getField_obj, hnone]
    rfl
  · intro j hld hnotobj
    rw [run_eq, hld]
    show ((getField j "data").bind _, st) = _
    rw [show getField j "data" = .error .typeError from by
      cases j with
      | obj fields => exact absurd rfl (hnotobj fields)
      | null => rfl
      | bool b => rfl
      | num q => rfl
      | str s => rfl
      | arr xs => rfl]
    rfl
  · intro j d e hld hfield hpred
    rw [run_eq, hld]
    show ((getField j "data").bind _, st) = _
    rw [hfield]
    show ((env.predict st.model d).bind _, st) = _
    rw [hpred]
    rfl

/-- C5 witness: each failure shape at the concrete environments. -/
theorem run_propagates_errors_check :
    run exServeEnv exSt "notjson" = (.error .jsonDecodeError, exSt) ∧
    run exServeEnv exSt "nodata" = (.error (.keyError "data"), exSt) ∧
    run exServeEnv exSt "notobj" = (.error .typeError, exSt) ∧
    run exServeEnvErr exSt "anything" = (.error .valueError, exSt) :=
  ⟨(run_propagates_errors exServeEnv exSt "notjson").2.1 .jsonDecodeError rfl,
   (run_propagates_errors exServeEnv exSt "nodata").2.2.1 [("other", Json.null)] rfl rfl,
   (run_propagates_errors exServeEnv exSt "notobj").2.2.2.1 (Json.arr []) rfl
     (fun fields h => by cases h),
   (run_propagates_errors exServeEnvErr exSt "anything").2.2.2.2 exJsonReq
     (Json.arr [Json.arr [Json.num 1], Json.arr [Json.num 2]]) .valueError rfl rfl rfl⟩

/-- C8: `classnames[p]` succeeds exactly on `p ∈ {-2, -1, 0, 1}`.  For a
prediction outside `{0, 1}`: labels `≥ 2` or `≤ -3` make `run` raise
`IndexError` instead of returning, while the negative labels `-1` and `-2`
silently wrap around to `diabetic` and `not-diabetic` respectively. -/
theorem run_out_of_range_labels {M : Type} (env : ServeEnv M) (st : ServeState M)
    (raw : String) (fields : List (String × Json)) (rows : List Json)
    (preds : List Int) (p : Int)
    (hload : env.loads raw = .ok (Json.obj fields))
    (hdata : fields.lookup "data" = some (Json.arr rows))
    (hpred : env.predict st.model (Json.arr rows) = .ok preds)
    (hmem : p ∈ preds) (h0 : p ≠ 0) (h1 : p ≠ 1) :
    (2 ≤ p ∨ p ≤ -3 → run env st raw = (.error .indexError, st)) ∧
    (pyIndex classnames p = .error .indexError ∨
      (p < 0 ∧ ∃ s ∈ classnames, pyIndex classnames p = .ok s)) ∧
    (p = -1 → pyIndex classnames p = .ok "diabetic") ∧
    (p = -2 → pyIndex classnames p = .ok "not-diabetic") := by
  refine ⟨?_, ?_, ?_, ?_⟩
  · intro hout
    rw [run_eq, hload]
    show ((getField (Json.obj fields) "data").bind _, st) = _
    rw [getField_obj, hdata]
    show ((env.predict st.model (Json.arr rows)).bind _, st) = _
    rw [hpred]
    show ((preds.mapM (pyIndex classnames)).bind _, st) = _
    rw [mapM_pyIndex_outOfRange preds p hmem hout]
    rfl
  · rw [pyIndex_classnames]
    by_cases c1 : p = 0 ∨ p = -2
    · rcases c1 with c1 | c1
      · exact absurd c1 h0
      · subst c1
        exact Or.inr ⟨by norm_num, "not-diabetic", by simp [classnames], by simp⟩
    · by_cases c2 : p = 1 ∨ p = -1
      · rcases c2 with c2 | c2
        · exact absurd c2 h1
        · subst c2
          refine Or.inr ⟨by norm_num, "diabetic", by simp [classnames], ?_⟩
          simp [c1]
      · rw [if_neg c1, if_neg c2]
        exact Or.inl rfl
  · intro hp; subst hp
    rw [pyIndex_classnames]; rfl
  · intro hp; subst hp
    rw [pyIndex_classnames]; rfl

/-- C8 witness: the model emitting label `5` on the second row makes `run`
raise `IndexError` at the concrete environment. -/
theorem run_out_of_range_labels_check :
    run exServeEnvBig exSt "req" = (.error .indexError, exSt) :=
  (run_out_of_range_labels exServeEnvBig exSt "req" _
      [Json.arr [Json.num 1], Json.arr [Json.num 2]] [0, 5] 5
      rfl rfl rfl (by decide) (by decide) (by decide)).1 (by decide)

end ScoreDiabetes

/-! ## Trace facts about the training scripts -/

/-- If no `q`-event occurs in the first `k` positions of `tr` and no
`p`-event occurs from position `k` on, then every `p`-event of `tr` precedes
every `q`-event. -/
theorem eventsBefore_of_split {M : Type} (p q : Event M → Bool)
    (tr : List (Event M)) (k : Nat)
    (h1 : (tr.take k).all (fun e => !(q e)) = true)
    (h2 : (tr.drop k).all (fun e => !(p e)) = true) :
    eventsBefore p q tr := by
  intro i j hi hj hp hq
  have hik : i < k := by
    by_contra hcon
    push_neg at hcon
    have hlt : i - k < (tr.drop k).length := by
      rw [List.length_drop]; omega
    have hel : (tr.drop k)[i - k] = tr.getD i .complete := by
      rw [List.getElem_drop, List.getD_eq_getElem _ _ hi]
      congr 1
      omega
    have hall := List.all_eq_true.mp h2 _ (List.getElem_mem hlt)
    rw [hel, hp] at hall
    simp at hall
  have hjk : k ≤ j := by
    by_contra hcon
    push_neg at hcon
    have hlt : j < (tr.take k).length := by
      rw [List.length_take]; omega
    have hel : (tr.take k)[j] = tr.getD j .complete := by
      rw [List.getElem_take]
      exact (List.getD_eq_getElem _ _ hj).symm
    have hall := List.all_eq_true.mp h1 _ (List.getElem_mem hlt)
    rw [hel, hq] at hall
    simp at hall
  omega

/-- When loading succeeds, the datastore script emits its full trace. -/
theorem datastoreScript_ok {M : Type} (env : DatastoreEnv M) (args : Args)
    (X : List (List Cell)) (y : List Cell)
    (h : datastoreLoad env args = .ok (X, y)) :
    datastoreScript env args = .ok (datastoreRun env args X y) := by
  unfold datastoreScript
  rw [h]
  rfl

/-- When loading succeeds, the tree script emits its full trace. -/
theorem treeScript_ok {M : Type} (env : TreeEnv M)
    (X : List (List Cell)) (y : List Cell)
    (h : treeLoad env = .ok (X, y)) :
    treeScript env = .ok (treeRun env X y) := by
  unfold treeScript
  rw [h]
  rfl

/-- `mapM` over `Except` fails whenever some element fails. -/
theorem mapM_error_of_mem {α β : Type} (f : α → Except PyErr β) (l : List α)
    (x : α) (hx : x ∈ l) (e : PyErr) (he : f x = .error e) :
    ∃ e', l.mapM f = .error e' := by
  induction l with
  | nil => simp at hx
  | cons a t ih =>
    rw [List.mapM_cons]
    rcases List.mem_cons.mp hx with rfl | hmem
    · rw [he]
      exact ⟨e, rfl⟩
    · rcases hfa : f a with ea | va
      · exact ⟨ea, rfl⟩
      · rcases ih hmem with ⟨e', he'⟩
        rw [he']
        exact ⟨e', rfl⟩

/-- A found column index points at the column with the requested name. -/
theorem dfColIdx_ok (d : DF) (name : String) (i : Nat)
    (h : dfColIdx d name = .ok i) :
    i < d.columns.length ∧ d.columns.getD i "" = name := by
  unfold dfColIdx at h
  cases hf : d.columns.findIdx? (· == name) with
  | none => rw [hf] at h; cases h
  | some j =>
    rw [hf] at h
    cases h
    obtain ⟨hlt, hfi⟩ := List.findIdx?_eq_some_iff_findIdx_eq.mp hf
    refine ⟨hlt, ?_⟩
    have hfig := @List.findIdx_getElem _ (· == name) d.columns (by rw [hfi]; exact hlt)
    have hg : d.columns.getD i "" == name := by
      rw [← hfi, List.getD_eq_getElem _ _ (by rw [hfi]; exact hlt)]
      exact hfig
    exact eq_of_beq hg

/-- Looking up a missing column name raises `KeyError`. -/
theorem dfColIdx_error (d : DF) (name : String) (h : name ∉ d.columns) :
    dfColIdx d name = .error (.keyError name) := by
  unfold dfColIdx
  rw [List.findIdx?_eq_none_iff.mpr ?_]
  intro x hx
  by_contra hbe
  simp only [Bool.not_eq_false, beq_iff_eq] at hbe
  exact h (hbe ▸ hx)

/-- Selecting columns fails when any requested name is missing. -/
theorem dfSelect_error (d : DF) (names : List String) (c : String)
    (hc : c ∈ names) (hmiss : c ∉ d.columns) :
    ∃ e, dfSelect d names = .error e := by
  unfold dfSelect
  rcases mapM_error_of_mem (dfColIdx d) names c hc _ (dfColIdx_error d c hmiss)
    with ⟨e, he⟩
  rw [he]
  exact ⟨e, rfl⟩

/-- Extracting a missing column fails with `KeyError`. -/
theorem dfGetCol_error (d : DF) (name : String) (hmiss : name ∉ d.columns) :
    dfGetCol d name = .error (.keyError name) := by
  unfold dfGetCol
  rw [dfColIdx_error d name hmiss]
  rfl

/-- The indices produced by resolving a list of column names: one index per
name, each pointing at the column of that name. -/
theorem mapM_dfColIdx_spec (d : DF) (names : List String) (idxs : List Nat)
    (h : names.mapM (dfColIdx d) = .ok idxs) :
    idxs.length = names.length ∧
    ∀ k, k < idxs.length →
      idxs.getD k 0 < d.columns.length ∧
      d.columns.getD (idxs.getD k 0) "" = names.getD k "" := by
  induction names generalizing idxs with
  | nil =>
    rw [List.mapM_nil] at h
    cases h
    exact ⟨rfl, by intro k hk; simp at hk⟩
  | cons a t ih =>
    rw [List.mapM_cons] at h
    rcases ha : dfColIdx d a with ea | ia
    · rw [ha] at h; cases h
    · rw [ha] at h
      rcases ht : t.mapM (dfColIdx d) with et | it
      · rw [ht] at h; cases h
      · rw [ht] at h
        cases h
        obtain ⟨hlen, hrest⟩ := ih it ht
        obtain ⟨halt, haname⟩ := dfColIdx_ok d a ia ha
        refine ⟨by simp [hlen], ?_⟩
        intro k hk
        cases k with
        | zero => exact ⟨halt, haname⟩
        | succ k' =>
          simp only [List.length_cons] at hk
          exact hrest k' (by omega)

/-- C2 (counterexample): in a concrete successful run of the datastore
script, `joblib.dump` sits at position 12 of the trace while the `Accuracy`
metric is logged at position 7, refuting the claimed step order in which
serialization precedes the logging of the scalar metrics. -/
theorem training_log_after_dump_cex :
    datastoreScript exDSEnv exArgs = .ok exTraceDS ∧
    ¬ eventsBefore isDumpEvent isLogMetricEvent exTraceDS := by
  constructor
  · rfl
  · intro h
    have h127 := h 12 7 (by decide) (by decide) rfl rfl
    omega

/-- C2 (amended): each training script parses its inputs and then runs
`train_test_split`, `fit`, `predict`, computes and logs accuracy, computes
and logs AUC, then (tree script only) plots, and only then serializes the
model and completes — so every scalar metric log precedes the dump, and in
the datastore script the regularization-rate log even precedes the fit. -/
theorem training_step_order {M M' : Type}
    (envD : DatastoreEnv M) (args : Args) (X : List (List Cell)) (y : List Cell)
    (hD : datastoreLoad envD args = .ok (X, y))
    (envT : TreeEnv M') (XT : List (List Cell)) (yT : List Cell)
    (hT : treeLoad envT = .ok (XT, yT)) :
    (datastoreScript envD args = .ok (datastoreRun envD args X y) ∧
      eventsBefore isSplitCall isFitEvent (datastoreRun envD args X y) ∧
      eventsBefore isFitEvent isPredictEvent (datastoreRun envD args X y) ∧
      eventsBefore isPredictEvent isDumpEvent (datastoreRun envD args X y) ∧
      eventsBefore (isLogNamed "Regularization Rate") isFitEvent
        (datastoreRun envD args X y) ∧
      eventsBefore isLogMetricEvent isDumpEvent (datastoreRun envD args X y)) ∧
    (treeScript envT = .ok (treeRun envT XT yT) ∧
      eventsBefore isSplitCall isFitEvent (treeRun envT XT yT) ∧
      eventsBefore isFitEvent isPredictEvent (treeRun envT XT yT) ∧
      eventsBefore isPredictEvent isDumpEvent (treeRun envT XT yT) ∧
      eventsBefore isLogMetricEvent isPlotEvent (treeRun envT XT yT) ∧
      eventsBefore isPlotEvent isDumpEvent (treeRun envT XT yT) ∧
      eventsBefore isLogMetricEvent isDumpEvent (treeRun envT XT yT)) := by
  refine ⟨⟨datastoreScript_ok envD args X y hD,
      eventsBefore_of_split _ _ _ 2 rfl rfl,
      eventsBefore_of_split _ _ _ 5 rfl rfl,
      eventsBefore_of_split _ _ _ 6 rfl rfl,
      eventsBefore_of_split _ _ _ 4 rfl rfl,
      eventsBefore_of_split _ _ _ 12 rfl rfl⟩,
    ⟨treeScript_ok envT XT yT hT,
      eventsBefore_of_split _ _ _ 2 rfl rfl,
      eventsBefore_of_split _ _ _ 4 rfl rfl,
      eventsBefore_of_split _ _ _ 5 rfl rfl,
      eventsBefore_of_split _ _ _ 10 rfl rfl,
      eventsBefore_of_split _ _ _ 19 rfl rfl,
      eventsBefore_of_split _ _ _ 10 rfl rfl⟩⟩

/-- C2 witness: the amended order facts at the concrete environments. -/
theorem training_step_order_check :
    (datastoreScript exDSEnv exArgs = .ok (datastoreRun exDSEnv exArgs exX exY) ∧
      eventsBefore isSplitCall isFitEvent (datastoreRun exDSEnv exArgs exX exY) ∧
      eventsBefore isFitEvent isPredictEvent (datastoreRun exDSEnv exArgs exX exY) ∧
      eventsBefore isPredictEvent isDumpEvent (datastoreRun exDSEnv exArgs exX exY) ∧
      eventsBefore (isLogNamed "Regularization Rate") isFitEvent
        (datastoreRun exDSEnv exArgs exX exY) ∧
      eventsBefore isLogMetricEvent isDumpEvent (datastoreRun exDSEnv exArgs exX exY)) ∧
    (treeScript exTreeEnv = .ok (treeRun exTreeEnv exX exY) ∧
      eventsBefore isSplitCall isFitEvent (treeRun exTreeEnv exX exY) ∧
      eventsBefore isFitEvent isPredictEvent (treeRun exTreeEnv exX exY) ∧
      eventsBefore isPredictEvent isDumpEvent (treeRun exTreeEnv exX exY) ∧
      eventsBefore isLogMetricEvent isPlotEvent (treeRun exTreeEnv exX exY) ∧
      eventsBefore isPlotEvent isDumpEvent (treeRun exTreeEnv exX exY) ∧
      eventsBefore isLogMetricEvent isDumpEvent (treeRun exTreeEnv exX exY)) :=
  training_step_order exDSEnv exArgs exX exY rfl exTreeEnv exX exY rfl

/-- C3: each training script logs exactly its scalar metrics in trace order —
the tree script `Accuracy` then `AUC`, the datastore script additionally the
`Regularization Rate` parameter before them — where `Accuracy` is
`np.average(y_hat == y_test)` and `AUC` is `roc_auc_score` on the test labels
and the positive-class probability column; and whenever `predict` yields one
label per test row, the accuracy value is the fraction of test rows whose
predicted label equals the true label. -/
theorem training_two_metrics {M M' : Type}
    (envD : DatastoreEnv M) (args : Args) (X : List (List Cell)) (y : List Cell)
    (hD : datastoreLoad envD args = .ok (X, y))
    (envT : TreeEnv M') (XT : List (List Cell)) (yT : List Cell)
    (hT : treeLoad envT = .ok (XT, yT)) :
    (∃ tr Xte yte model,
      datastoreScript envD args = .ok tr ∧
      Xte = (envD.train_test_split X y (3/10) 0).2.1 ∧
      yte = (envD.train_test_split X y (3/10) 0).2.2.2 ∧
      model = envD.lrFit ⟨1/(args.regularization.getD (1/100)), "liblinear"⟩
        (envD.train_test_split X y (3/10) 0).1
        (envD.train_test_split X y (3/10) 0).2.2.1 ∧
      tr.filter isLogMetricEvent =
        [Event.logMetric "Regularization Rate" (args.regularization.getD (1/100)),
         Event.logMetric "Accuracy" (accuracyOf (envD.predict model Xte) yte),
         Event.logMetric "AUC"
           (envD.roc_auc_score yte ((envD.predict_proba model Xte).map Prod.snd))]) ∧
    (∃ tr Xte yte model,
      treeScript envT = .ok tr ∧
      Xte = (envT.train_test_split XT yT (3/10) 0).2.1 ∧
      yte = (envT.train_test_split XT yT (3/10) 0).2.2.2 ∧
      model = envT.treeFit (envT.train_test_split XT yT (3/10) 0).1
        (envT.train_test_split XT yT (3/10) 0).2.2.1 ∧
      tr.filter isLogMetricEvent =
        [Event.logMetric "Accuracy" (accuracyOf (envT.predict model Xte) yte),
         Event.logMetric "AUC"
           (envT.roc_auc_score yte ((envT.predict_proba model Xte).map Prod.snd))]) ∧
    (∀ a b : List Cell, a.length = b.length →
      accuracyOf a b =
        (((a.zip b).countP fun c => c.1 == c.2 : ℕ) : ℚ) / ((b.length : ℕ) : ℚ)) := by
  refine ⟨⟨datastoreRun envD args X y, _, _, _,
      datastoreScript_ok envD args X y hD, rfl, rfl, rfl, rfl⟩,
    ⟨treeRun envT XT yT, _, _, _,
      treeScript_ok envT XT yT hT, rfl, rfl, rfl, rfl⟩, ?_⟩
  intro a b hab
  unfold accuracyOf
  rw [List.length_zip, hab, min_self]

/-- C3 witness: the metric logs at the concrete environments. -/
theorem training_two_metrics_check :
    (∃ tr Xte yte model,
      datastoreScript exDSEnv exArgs = .ok tr ∧
      Xte = (exDSEnv.train_test_split exX exY (3/10) 0).2.1 ∧
      yte = (exDSEnv.train_test_split exX exY (3/10) 0).2.2.2 ∧
      model = exDSEnv.lrFit ⟨1/(exArgs.regularization.getD (1/100)), "liblinear"⟩
        (exDSEnv.train_test_split exX exY (3/10) 0).1
        (exDSEnv.train_test_split exX exY (3/10) 0).2.2.1 ∧
      tr.filter isLogMetricEvent =
        [Event.logMetric "Regularization Rate" (exArgs.regularization.getD (1/100)),
         Event.logMetric "Accuracy" (accuracyOf (exDSEnv.predict model Xte) yte),
         Event.logMetric "AUC"
           (exDSEnv.roc_auc_score yte
             ((exDSEnv.predict_proba model Xte).map Prod.snd))]) ∧
    (∃ tr Xte yte model,
      treeScript exTreeEnv = .ok tr ∧
      Xte = (exTreeEnv.train_test_split exX exY (3/10) 0).2.1 ∧
      yte = (exTreeEnv.train_test_split exX exY (3/10) 0).2.2.2 ∧
      model = exTreeEnv.treeFit (exTreeEnv.train_test_split exX exY (3/10) 0).1
        (exTreeEnv.train_test_split exX exY (3/10) 0).2.2.1 ∧
      tr.filter isLogMetricEvent =
        [Event.logMetric "Accuracy" (accuracyOf (exTreeEnv.predict model Xte) yte),
         Event.logMetric "AUC"
           (exTreeEnv.roc_auc_score yte
             ((exTreeEnv.predict_proba model Xte).map Prod.snd))]) ∧
    (∀ a b : List Cell, a.length = b.length →
      accuracyOf a b =
        (((a.zip b).countP fun c => c.1 == c.2 : ℕ) : ℚ) / ((b.length : ℕ) : ℚ)) :=
  training_two_metrics exDSEnv exArgs exX exY rfl exTreeEnv exX exY rfl

/-- C4: each training script serializes exactly one artifact: the very
classifier object returned by `fit` — the same object whose predictions
produced the reported metrics — written to `outputs/diabetes_model.pkl`. -/
theorem training_persists_fitted_model {M M' : Type}
    (envD : DatastoreEnv M) (args : Args) (X : List (List Cell)) (y : List Cell)
    (hD : datastoreLoad envD args = .ok (X, y))
    (envT : TreeEnv M') (XT : List (List Cell)) (yT : List Cell)
    (hT : treeLoad envT = .ok (XT, yT)) :
    (∃ tr model,
      datastoreScript envD args = .ok tr ∧
      model = envD.lrFit ⟨1/(args.regularization.getD (1/100)), "liblinear"⟩
        (envD.train_test_split X y (3/10) 0).1
        (envD.train_test_split X y (3/10) 0).2.2.1 ∧
      tr.filter isDumpEvent = [Event.dump model "outputs/diabetes_model.pkl"] ∧
      tr.filter isFitEvent =
        [Event.fitLR ⟨1/(args.regularization.getD (1/100)), "liblinear"⟩ model] ∧
      tr.filter isPredictEvent = [Event.predictCall model]) ∧
    (∃ tr model,
      treeScript envT = .ok tr ∧
      model = envT.treeFit (envT.train_test_split XT yT (3/10) 0).1
        (envT.train_test_split XT yT (3/10) 0).2.2.1 ∧
      tr.filter isDumpEvent = [Event.dump model "outputs/diabetes_model.pkl"] ∧
      tr.filter isFitEvent = [Event.fitTree model] ∧
      tr.filter isPredictEvent = [Event.predictCall model]) := by
  refine ⟨⟨datastoreRun envD args X y, _,
      datastoreScript_ok envD args X y hD, rfl, rfl, rfl, rfl⟩,
    ⟨treeRun envT XT yT, _,
      treeScript_ok envT XT yT hT, rfl, rfl, rfl, rfl⟩⟩

/-- C4 witness: the dump facts at the concrete environments. -/
theorem training_persists_fitted_model_check :
    (∃ tr model,
      datastoreScript exDSEnv exArgs = .ok tr ∧
      model = exDSEnv.lrFit ⟨1/(exArgs.regularization.getD (1/100)), "liblinear"⟩
        (exDSEnv.train_test_split exX exY (3/10) 0).1
        (exDSEnv.train_test_split exX exY (3/10) 0).2.2.1 ∧
      tr.filter isDumpEvent = [Event.dump model "outputs/diabetes_model.pkl"] ∧
      tr.filter isFitEvent =
        [Event.fitLR ⟨1/(exArgs.regularization.getD (1/100)), "liblinear"⟩ model] ∧
      tr.filter isPredictEvent = [Event.predictCall model]) ∧
    (∃ tr model,
      treeScript exTreeEnv = .ok tr ∧
      model = exTreeEnv.treeFit (exTreeEnv.train_test_split exX exY (3/10) 0).1
        (exTreeEnv.train_test_split exX exY (3/10) 0).2.2.1 ∧
      tr.filter isDumpEvent = [Event.dump model "outputs/diabetes_model.pkl"] ∧
      tr.filter isFitEvent = [Event.fitTree model] ∧
      tr.filter isPredictEvent = [Event.predictCall model]) :=
  training_persists_fitted_model exDSEnv exArgs exX exY rfl exTreeEnv exX exY rfl

/-- C6: plotting is optional and differs between the scripts.  The tree
script computes `roc_curve(y_test, scores)`, draws the dashed diagonal and
the (fpr, tpr) curve, labels and titles the figure, logs it to the run as
the image `ROC`, and shows it; the datastore script emits no plot-related
event at all. -/
theorem tree_plots_datastore_does_not {M M' : Type}
    (envD : DatastoreEnv M) (args : Args) (X : List (List Cell)) (y : List Cell)
    (hD : datastoreLoad envD args = .ok (X, y))
    (envT : TreeEnv M') (XT : List (List Cell)) (yT : List Cell)
    (hT : treeLoad envT = .ok (XT, yT)) :
    (∃ tr Xte yte model scores fpr tpr thr,
      treeScript envT = .ok tr ∧
      Xte = (envT.train_test_split XT yT (3/10) 0).2.1 ∧
      yte = (envT.train_test_split XT yT (3/10) 0).2.2.2 ∧
      model = envT.treeFit (envT.train_test_split XT yT (3/10) 0).1
        (envT.train_test_split XT yT (3/10) 0).2.2.1 ∧
      scores = (envT.predict_proba model Xte).map Prod.snd ∧
      (fpr, tpr, thr) = envT.roc_curve yte scores ∧
      tr.filter isPlotEvent =
        [Event.rocCurveCall fpr tpr thr,
         Event.pltFigure,
         Event.pltPlot [0, 1] [0, 1] "k--",
         Event.pltPlot fpr tpr "",
         Event.pltXlabel "False Positive Rate",
         Event.pltYlabel "True Positive Rate",
         Event.pltTitle "ROC Curve",
         Event.logImage "ROC",
         Event.pltShow]) ∧
    (∃ tr, datastoreScript envD args = .ok tr ∧ tr.filter isPlotEvent = []) := by
  refine ⟨⟨treeRun envT XT yT, _, _, _, _, _, _, _,
      treeScript_ok envT XT yT hT, rfl, rfl, rfl, rfl, rfl, rfl⟩,
    ⟨datastoreRun envD args X y, datastoreScript_ok envD args X y hD, rfl⟩⟩

/-- C6 witness: the plot facts at the concrete environments. -/
theorem tree_plots_datastore_does_not_check :
    (∃ tr Xte yte model scores fpr tpr thr,
      treeScript exTreeEnv = .ok tr ∧
      Xte = (exTreeEnv.train_test_split exX exY (3/10) 0).2.1 ∧
      yte = (exTreeEnv.train_test_split exX exY (3/10) 0).2.2.2 ∧
      model = exTreeEnv.treeFit (exTreeEnv.train_test_split exX exY (3/10) 0).1
        (exTreeEnv.train_test_split exX exY (3/10) 0).2.2.1 ∧
      scores = (exTreeEnv.predict_proba model Xte).map Prod.snd ∧
      (fpr, tpr, thr) = exTreeEnv.roc_curve yte scores ∧
      tr.filter isPlotEvent =
        [Event.rocCurveCall fpr tpr thr,
         Event.pltFigure,
         Event.pltPlot [0, 1] [0, 1] "k--",
         Event.pltPlot fpr tpr "",
         Event.pltXlabel "False Positive Rate",
         Event.pltYlabel "True Positive Rate",
         Event.pltTitle "ROC Curve",
         Event.logImage "ROC",
         Event.pltShow]) ∧
    (∃ tr, datastoreScript exDSEnv exArgs = .ok tr ∧ tr.filter isPlotEvent = []) :=
  tree_plots_datastore_does_not exDSEnv exArgs exX exY rfl exTreeEnv exX exY rfl

/-- C7: in the datastore script the parsed `--regularization` value `reg`
defaults to `0.01` when absent, is logged as the scalar
`Regularization Rate`, and is wired into the classifier as the inverse
regularization strength `C = 1/reg`, which under `reg ≠ 0` is a genuine
inverse (`(1/reg) * reg = 1`). -/
theorem datastore_regularization_wiring {M : Type}
    (env : DatastoreEnv M) (args : Args) (X : List (List Cell)) (y : List Cell)
    (hD : datastoreLoad env args = .ok (X, y))
    (hreg : args.regularization.getD (1/100) ≠ 0) :
    ∃ tr, datastoreScript env args = .ok tr ∧
      (args.regularization = none → args.regularization.getD (1/100) = 1/100) ∧
      (1/(args.regularization.getD (1/100))) * args.regularization.getD (1/100) = 1 ∧
      tr.filter isFitEvent =
        [Event.fitLR ⟨1/(args.regularization.getD (1/100)), "liblinear"⟩
          (env.lrFit ⟨1/(args.regularization.getD (1/100)), "liblinear"⟩
            (env.train_test_split X y (3/10) 0).1
            (env.train_test_split X y (3/10) 0).2.2.1)] ∧
      Event.logMetric "Regularization Rate" (args.regularization.getD (1/100)) ∈ tr := by
  refine ⟨datastoreRun env args X y, datastoreScript_ok env args X y hD,
    fun h => by rw [h]; rfl, ?_, rfl, ?_⟩
  · rw [one_div, inv_mul_cancel₀ hreg]
  · exact List.mem_cons_of_mem _ (List.mem_cons_of_mem _
      (List.mem_cons_of_mem _ (List.mem_cons_self _ _)))

/-- C7 witness: the wiring facts with `--regularization 1`. -/
theorem datastore_regularization_wiring_check :
    ∃ tr, datastoreScript exDSEnv exArgs = .ok tr ∧
      (exArgs.regularization = none → exArgs.regularization.getD (1/100) = 1/100) ∧
      (1/(exArgs.regularization.getD (1/100))) * exArgs.regularization.getD (1/100) = 1 ∧
      tr.filter isFitEvent =
        [Event.fitLR ⟨1/(exArgs.regularization.getD (1/100)), "liblinear"⟩
          (exDSEnv.lrFit ⟨1/(exArgs.regularization.getD (1/100)), "liblinear"⟩
            (exDSEnv.train_test_split exX exY (3/10) 0).1
            (exDSEnv.train_test_split exX exY (3/10) 0).2.2.1)] ∧
      Event.logMetric "Regularization Rate" (exArgs.regularization.getD (1/100))
        ∈ tr :=
  datastore_regularization_wiring exDSEnv exArgs exX exY rfl one_ne_zero

/-- C9: both scripts call `train_test_split` exactly once, with the
constants `test_size = 0.3` and `random_state = 0`; under scikit-learn's
size guarantee (the test set holds `⌈3n/10⌉ = (3n+9)/10` of the `n` rows)
the test sets have that size; and the scripts are deterministic: runs on
equal environments and arguments produce equal traces, hence equal logged
accuracy and AUC. -/
theorem split_params_deterministic {M M' : Type}
    (envD : DatastoreEnv M) (args : Args) (X : List (List Cell)) (y : List Cell)
    (hD : datastoreLoad envD args = .ok (X, y))
    (envT : TreeEnv M') (XT : List (List Cell)) (yT : List Cell)
    (hT : treeLoad envT = .ok (XT, yT))
    (hlenD : ((envD.train_test_split X y (3/10) 0).2.1).length =
      (3 * X.length + 9) / 10)
    (hlenT : ((envT.train_test_split XT yT (3/10) 0).2.1).length =
      (3 * XT.length + 9) / 10) :
    (∃ tr, datastoreScript envD args = .ok tr ∧
      tr.filter isSplitCall = [Event.splitCall (3/10) 0]) ∧
    (∃ tr, treeScript envT = .ok tr ∧
      tr.filter isSplitCall = [Event.splitCall (3/10) 0]) ∧
    ((envD.train_test_split X y (3/10) 0).2.1).length = (3 * X.length + 9) / 10 ∧
    ((envT.train_test_split XT yT (3/10) 0).2.1).length = (3 * XT.length + 9) / 10 ∧
    (∀ (env2 : DatastoreEnv M) (args2 : Args), env2 = envD → args2 = args →
      datastoreScript env2 args2 = datastoreScript envD args) ∧
    (∀ env2 : TreeEnv M', env2 = envT → treeScript env2 = treeScript envT) := by
  refine ⟨⟨datastoreRun envD args X y, datastoreScript_ok envD args X y hD, rfl⟩,
    ⟨treeRun envT XT yT, treeScript_ok envT XT yT hT, rfl⟩,
    hlenD, hlenT, ?_, ?_⟩
  · intro env2 args2 h1 h2
    rw [h1, h2]
  · intro env2 h
    rw [h]

/-- C9 witness: the split facts at the concrete environments (ten rows, so
the test set has `(3·10+9)/10 = 3` rows). -/
theorem split_params_deterministic_check :
    (∃ tr, datastoreScript exDSEnv exArgs = .ok tr ∧
      tr.filter isSplitCall = [Event.splitCall (3/10) 0]) ∧
    (∃ tr, treeScript exTreeEnv = .ok tr ∧
      tr.filter isSplitCall = [Event.splitCall (3/10) 0]) ∧
    ((exDSEnv.train_test_split exX exY (3/10) 0).2.1).length =
      (3 * exX.length + 9) / 10 ∧
    ((exTreeEnv.train_test_split exX exY (3/10) 0).2.1).length =
      (3 * exX.length + 9) / 10 ∧
    (∀ (env2 : DatastoreEnv Nat) (args2 : Args), env2 = exDSEnv → args2 = exArgs →
      datastoreScript env2 args2 = datastoreScript exDSEnv exArgs) ∧
    (∀ env2 : TreeEnv Nat, env2 = exTreeEnv → treeScript env2 = treeScript exTreeEnv) :=
  split_params_deterministic exDSEnv exArgs exX exY rfl exTreeEnv exX exY rfl
    (by decide) (by decide)

/-- Reduction of `>>=` on an `Except` success. -/
theorem bind_ok_eq {ε α β : Type} (a : α) (f : α → Except ε β) :
    (Except.ok a >>= f) = f a := rfl

/-- Reduction of `>>=` on an `Except` failure. -/
theorem bind_error_eq {ε α β : Type} (e : ε) (f : α → Except ε β) :
    ((Except.error e : Except ε α) >>= f) = .error e := rfl

/-- With the CSV reads fixed, the datastore load is selection from the
concatenated dataframe. -/
theorem datastoreLoad_eq {M : Type} (env : DatastoreEnv M) (args : Args)
    (dfs : List DF)
    (hdfs : (env.listdir args.data_folder).mapM env.read_csv = .ok dfs) :
    datastoreLoad env args =
      (dfSelect (pdConcat dfs) featureColumns >>= fun X =>
        dfGetCol (pdConcat dfs) "Diabetic" >>= fun y => .ok (X, y)) := by
  unfold datastoreLoad
  dsimp only []
  rw [hdfs]
  rfl

/-- The tree load is selection from the input dataset. -/
theorem treeLoad_eq {M : Type} (env : TreeEnv M) :
    treeLoad env =
      (dfSelect env.dataset featureColumns >>= fun X =>
        dfGetCol env.dataset "Diabetic" >>= fun y => .ok (X, y)) := rfl

/-- Splitting a successful feature/label extraction into its parts. -/
theorem load_pair_ok (sel : Except PyErr (List (List Cell)))
    (col : Except PyErr (List Cell)) (X : List (List Cell)) (y : List Cell)
    (h : (sel >>= fun X' => col >>= fun y' => .ok (X', y')) = .ok (X, y)) :
    sel = .ok X ∧ col = .ok y := by
  cases hs : sel with
  | error e => rw [hs, bind_error_eq] at h; cases h
  | ok X' =>
    rw [hs, bind_ok_eq] at h
    cases hc : col with
    | error e => rw [hc, bind_error_eq] at h; cases h
    | ok y' =>
      rw [hc, bind_ok_eq] at h
      cases h
      exact ⟨rfl, rfl⟩

/-- Inverting a successful column selection. -/
theorem dfSelect_ok_inv (d : DF) (names : List String) (X : List (List Cell))
    (h : dfSelect d names = .ok X) :
    ∃ idxs, names.mapM (dfColIdx d) = .ok idxs ∧
      X = d.rows.map fun r => idxs.map fun i => r.getD i none := by
  unfold dfSelect at h
  cases hm : names.mapM (dfColIdx d) with
  | error e => rw [hm, bind_error_eq] at h; cases h
  | ok idxs =>
    rw [hm, bind_ok_eq] at h
    cases h
    exact ⟨idxs, rfl, rfl⟩

/-- C10: both scripts take the feature matrix from exactly the eight named
columns, in source order, and the label from the `Diabetic` column; and the
datastore script loads by reading every entry of the data folder as a CSV
file and concatenating the frames, so a failing read of any entry, or a
required column missing from the concatenated frame, aborts the script. -/
theorem feature_columns_and_loading {M M' : Type}
    (envD : DatastoreEnv M) (args : Args) (envT : TreeEnv M') :
    featureColumns = ["Pregnancies", "PlasmaGlucose", "DiastolicBloodPressure",
      "TricepsThickness", "SerumInsulin", "BMI", "DiabetesPedigree", "Age"] ∧
    (∀ f ∈ envD.listdir args.data_folder, ∀ e, envD.read_csv f = .error e →
      ∃ e', datastoreScript envD args = .error e') ∧
    (∀ dfs, (envD.listdir args.data_folder).mapM envD.read_csv = .ok dfs →
      ∀ c ∈ featureColumns ++ ["Diabetic"], c ∉ (pdConcat dfs).columns →
      ∃ e', datastoreScript envD args = .error e') ∧
    (∀ X y, datastoreLoad envD args = .ok (X, y) →
      ∀ dfs, (envD.listdir args.data_folder).mapM envD.read_csv = .ok dfs →
      dfSelect (pdConcat dfs) featureColumns = .ok X ∧
      dfGetCol (pdConcat dfs) "Diabetic" = .ok y ∧
      ∃ idxs, featureColumns.mapM (dfColIdx (pdConcat dfs)) = .ok idxs ∧
        idxs.length = 8 ∧
        (∀ k, k < 8 →
          (pdConcat dfs).columns.getD (idxs.getD k 0) "" =
            featureColumns.getD k "") ∧
        X = (pdConcat dfs).rows.map fun r => idxs.map fun i => r.getD i none) ∧
    (∀ XT yT, treeLoad envT = .ok (XT, yT) →
      dfSelect envT.dataset featureColumns = .ok XT ∧
      dfGetCol envT.dataset "Diabetic" = .ok yT) := by
  refine ⟨rfl, ?_, ?_, ?_, ?_⟩
  · intro f hf e he
    obtain ⟨e', he'⟩ := mapM_error_of_mem envD.read_csv _ f hf e he
    refine ⟨e', ?_⟩
    unfold datastoreScript datastoreLoad
    dsimp only []
    rw [he']
    rfl
  · intro dfs hdfs c hc hmiss
    have hle := datastoreLoad_eq envD args dfs hdfs
    rcases List.mem_append.mp hc with hcf | hcd
    · obtain ⟨e, he⟩ := dfSelect_error (pdConcat dfs) featureColumns c hcf hmiss
      refine ⟨e, ?_⟩
      unfold datastoreScript
      rw [hle, he]
      rfl
    · have hcD : c = "Diabetic" := by simpa using hcd
      subst hcD
      cases hsel : dfSelect (pdConcat dfs) featureColumns with
      | error e =>
        refine ⟨e, ?_⟩
        unfold datastoreScript
        rw [hle, hsel]
        rfl
      | ok X1 =>
        refine ⟨.keyError "Diabetic", ?_⟩
        unfold datastoreScript
        rw [hle, hsel, bind_ok_eq, dfGetCol_error (pdConcat dfs) "Diabetic" hmiss]
        rfl
  · intro X y hXy dfs hdfs
    rw [datastoreLoad_eq envD args dfs hdfs] at hXy
    obtain ⟨hsel, hcol⟩ := load_pair_ok _ _ _ _ hXy
    refine ⟨hsel, hcol, ?_⟩
    obtain ⟨idxs, hm, hXeq⟩ := dfSelect_ok_inv _ _ _ hsel
    obtain ⟨hlen, hpoint⟩ := mapM_dfColIdx_spec _ _ _ hm
    refine ⟨idxs, hm, ?_, ?_, hXeq⟩
    · rw [hlen]
      rfl
    · intro k hk
      exact (hpoint k (by rw [hlen]; exact hk)).2
  · intro XT yT hXY
    rw [treeLoad_eq] at hXY
    exact load_pair_ok _ _ _ _ hXY

/-- C10 witness: a folder entry `read_csv` rejects aborts the script, a
frame lacking the `Diabetic` column aborts the script, and on the concrete
dataset the extracted matrix and labels are the eight feature columns and
the `Diabetic` column. -/
theorem feature_columns_and_loading_check :
    (∃ e', datastoreScript exDSEnvBad exArgs = .error e') ∧
    (∃ e', datastoreScript exDSEnvNoLabel exArgs = .error e') ∧
    (dfSelect exTreeEnv.dataset featureColumns = .ok exX ∧
      dfGetCol exTreeEnv.dataset "Diabetic" = .ok exY) := by
  refine ⟨?_, ?_, ?_⟩
  · exact (feature_columns_and_loading exDSEnvBad exArgs exTreeEnv).2.1
      "diabetes.csv" (by decide) (.ioError "not a csv") rfl
  · exact (feature_columns_and_loading exDSEnvNoLabel exArgs exTreeEnv).2.2.1
      [exDFNoLabel] rfl "Diabetic" (by decide) (by decide)
  · exact (feature_columns_and_loading exDSEnvBad exArgs exTreeEnv).2.2.2.2
      exX exY rfl
